import Mathlib

/-!
# Post-hook `InstallServiceMesh` (cluster/hooks_istio.go)

A shallow embedding of the Istio post-hook of the `cluster` package.

The hook is straight-line orchestration over external collaborators: the
parameter binder, the cluster handle, the YAML serializer, the Helm
deployment helper, the Kubernetes client constructor and the `istio`
package helpers.  None of those bodies belongs to the embedded file, so each
one is a field of `Collaborators` / `CommonCluster` giving its outcome as a
function of the arguments it receives.  The hook itself is translated
statement by statement; it threads a `World` that records, in order, every
collaborator call it makes together with the arguments, the log lines it
writes, and the cluster's service-mesh flag.

Go `error` results are `Option GoError` (`none` is `nil`); `(T, error)` results
are `Except GoError T`.  Go `[]byte` values are modelled as `String`.
-/

namespace Cluster

/-! ## Errors -/

/-- Go `error` values: an opaque error carrying its text, or an error wrapped
with a message by `emperror.Wrap`, which keeps the original cause. -/
inductive GoError where
  | mk (text : String)
  | wrap (cause : GoError) (message : String)
  deriving DecidableEq, Repr

namespace emperror

/-- Go `emperror.Wrap(err, message)` for a non-nil `err` (every call site of the
hook is guarded by `err != nil`). -/
def Wrap (err : GoError) (message : String) : GoError :=
  GoError.wrap err message

end emperror

/-- Method `Error()` of a Go error; a wrapped error renders as `message: cause`. -/
def GoError.Error : GoError → String
  | .mk text => text
  | .wrap cause message => message ++ ": " ++ cause.Error

/-! ## Data model -/

/-- Go `[]byte`. -/
abbrev Bytes := String

/-- Go `cluster.PostHookParam` is `interface{}`: an untyped JSON-like value. -/
inductive PostHookParam where
  | null
  | bool (b : Bool)
  | number (n : Int)
  | string (s : String)
  | array (items : List PostHookParam)
  | object (fields : List (String × PostHookParam))

/-- InstallServiceMeshParams describes InstallServiceMesh posthook params. -/
structure InstallServiceMeshParams where
  /-- list of namespaces that will be labelled with istio-injection=enabled -/
  AutoSidecarInjectNamespaces : List String
  /-- prevents Envoy sidecars from intercepting external requests -/
  BypassEgressTraffic : Bool
  /-- signals if mutual TLS is enabled in the service mesh -/
  EnableMtls : Bool
  deriving DecidableEq, Repr

/-- Modelled from the spec: the result type of `GetK8sIpv4Cidrs` (declared in
`pkg/cluster`, not part of the embedded file); the hook reads its two range
fields. -/
structure Ipv4Cidrs where
  ServiceClusterIPRange : String
  PodIPRange : String
  deriving DecidableEq, Repr

namespace istio

/-- Modelled from the spec: `istio.MTLS` (declared in `internal/istio`);
section 6 gives the values document as
`global: (mtls: (enabled: bool), proxy: (includeIPRanges: string))`. -/
structure MTLS where
  Enabled : Bool
  deriving DecidableEq, Repr

/-- Modelled from the spec: `istio.Proxy` (declared in `internal/istio`). -/
structure Proxy where
  IncludeIPRanges : String
  deriving DecidableEq, Repr

/-- Modelled from the spec: `istio.Global` (declared in `internal/istio`). -/
structure Global where
  Mtls : MTLS
  Proxy : Proxy
  deriving DecidableEq, Repr

/-- Modelled from the spec: `istio.Config` (declared in `internal/istio`). -/
structure Config where
  Global : Global
  deriving DecidableEq, Repr

/-- Go zero value of `istio.Proxy`: the field a composite literal leaves out. -/
def Proxy.zero : Proxy :=
  { IncludeIPRanges := "" }

end istio

/-- Handle of a Kubernetes API client built by `NewClientFromKubeConfig`. -/
structure Client where
  id : Nat
  deriving DecidableEq, Repr

/-! ## Collaborators -/

/-- The `CommonCluster` interface as far as the hook uses it.  The three
getters are given by their outcome; `serviceMesh` is the flag that
`SetServiceMesh` writes. -/
structure CommonCluster where
  GetK8sIpv4Cidrs : Except GoError Ipv4Cidrs
  GetK8sConfig : Except GoError Bytes
  GetMonitoring : Bool
  serviceMesh : Bool

/-- Modelled from the spec: `SetServiceMesh` is a method of the cluster
implementations, which are not part of the embedded file; section 4.2 calls it
a pure write of the mesh-enabled flag. -/
def CommonCluster.SetServiceMesh (c : CommonCluster) (m : Bool) : CommonCluster :=
  { c with serviceMesh := m }

/-- The package-level functions and constants the hook depends on, each taken
as a parameter: their bodies and values live outside the embedded file. -/
structure Collaborators where
  /-- Go `castToPostHookParam(&param, &params)` -/
  castToPostHookParam : PostHookParam → Except GoError InstallServiceMeshParams
  /-- Go `yaml.Marshal(config)` -/
  yamlMarshal : istio.Config → Except GoError Bytes
  /-- Go `installDeployment(cluster, namespace, deploymentName, releaseName,
  values, chartVersion, wait)`; the first argument is always the cluster the
  hook runs on, so the outcome is given for the remaining six -/
  installDeployment : String → String → String → Bytes → String → Bool → Option GoError
  /-- Go `viper.GetString(key)` -/
  viperGetString : String → String
  /-- Go `k8sclient.NewClientFromKubeConfig(kubeConfig)` -/
  NewClientFromKubeConfig : Bytes → Except GoError Client
  /-- Go `istio.LabelNamespaces(log, client, namespaces)` -/
  LabelNamespaces : Client → List String → Option GoError
  /-- Go `istio.AddPrometheusTargets(log, client)` -/
  AddPrometheusTargets : Client → Option GoError
  /-- Go `istio.AddGrafanaDashboards(log, client)` -/
  AddGrafanaDashboards : Client → Option GoError
  /-- constant `istio.Namespace` -/
  istioNamespace : String
  /-- constant `pkgHelm.BanzaiRepository` -/
  BanzaiRepository : String
  /-- constant `pConfig.IstioChartVersion` (a configuration key) -/
  IstioChartVersion : String

/-! ## Observable effects -/

/-- One collaborator call made by the hook, with the arguments passed.  The
pure reads `GetMonitoring()` and `viper.GetString` (evaluated as an argument of
the deployment call) and the log lines are not calls in this sense; log lines
are kept in `World.logs`. -/
inductive Call where
  | castToPostHookParam (param : PostHookParam)
  | GetK8sIpv4Cidrs
  | yamlMarshal (config : istio.Config)
  | installDeployment (ns deploymentName releaseName : String) (values : Bytes)
      (chartVersion : String) (wait : Bool)
  | GetK8sConfig
  | NewClientFromKubeConfig (kubeConfig : Bytes)
  | LabelNamespaces (client : Client) (namespaces : List String)
  | AddPrometheusTargets (client : Client)
  | AddGrafanaDashboards (client : Client)
  | SetServiceMesh (m : Bool)

/-- A line written to the package logger. -/
inductive LogEntry where
  | infof (params : InstallServiceMeshParams)
  | warnf (message : String)
  deriving DecidableEq, Repr

/-- What one invocation of the hook leaves behind: the cluster (with its
service-mesh flag), the collaborator calls in the order made, the log. -/
structure World where
  cluster : CommonCluster
  calls : List Call
  logs : List LogEntry

/-- Record a collaborator call. -/
def World.call (w : World) (c : Call) : World :=
  { w with calls := w.calls ++ [c] }

/-- Record a log line. -/
def World.log (w : World) (l : LogEntry) : World :=
  { w with logs := w.logs ++ [l] }

/-- World in which the hook starts on `cluster`. -/
def World.start (cluster : CommonCluster) : World :=
  { cluster := cluster, calls := [], logs := [] }

/-! ## The hook -/

/-- InstallServiceMesh is a posthook for installing Istio on a cluster.
Returns the hook's `error` result and the world it leaves. -/
def InstallServiceMesh (deps : Collaborators) (cluster : CommonCluster)
    (param : PostHookParam) : Option GoError × World :=
  let w := (World.start cluster).call (.castToPostHookParam param)
  match deps.castToPostHookParam param with
  | .error err => (some (emperror.Wrap err "failed to cast posthook param"), w)
  | .ok params =>
    let w := w.log (.infof params)
    let config : istio.Config :=
      { Global := { Mtls := { Enabled := params.EnableMtls }, Proxy := istio.Proxy.zero } }
    let cw : istio.Config × World :=
      if params.BypassEgressTraffic then
        match cluster.GetK8sIpv4Cidrs with
        | .error _ =>
          (config, (w.call .GetK8sIpv4Cidrs).log (.warnf
            "couldn't set included IP ranges in Envoy config, external requests will be intercepted"))
        | .ok ipRanges =>
          ({ config with Global := { config.Global with Proxy :=
              { IncludeIPRanges := ipRanges.PodIPRange ++ "," ++ ipRanges.ServiceClusterIPRange } } },
            w.call .GetK8sIpv4Cidrs)
      else (config, w)
    let config := cw.1
    let w := cw.2.call (.yamlMarshal config)
    match deps.yamlMarshal config with
    | .error err => (some (emperror.Wrap err "failed to marshal yaml values"), w)
    | .ok overrideValues =>
      let chartVersion := deps.viperGetString deps.IstioChartVersion
      let w := w.call (.installDeployment deps.istioNamespace (deps.BanzaiRepository ++ "/istio")
        "istio" overrideValues chartVersion false)
      match deps.installDeployment deps.istioNamespace (deps.BanzaiRepository ++ "/istio")
          "istio" overrideValues chartVersion false with
      | some err => (some (emperror.Wrap err "installing Istio failed"), w)
      | none =>
        let w := w.call .GetK8sConfig
        match cluster.GetK8sConfig with
        | .error err => (some (emperror.Wrap err "failed to get kubeconfig"), w)
        | .ok kubeConfig =>
          let w := w.call (.NewClientFromKubeConfig kubeConfig)
          match deps.NewClientFromKubeConfig kubeConfig with
          | .error err => (some (emperror.Wrap err "failed to create client from kubeconfig"), w)
          | .ok client =>
            let w := w.call (.LabelNamespaces client params.AutoSidecarInjectNamespaces)
            match deps.LabelNamespaces client params.AutoSidecarInjectNamespaces with
            | some err => (some (emperror.Wrap err "failed to label namespace"), w)
            | none =>
              if cluster.GetMonitoring then
                let w := w.call (.AddPrometheusTargets client)
                match deps.AddPrometheusTargets client with
                | some err => (some (emperror.Wrap err "failed to add prometheus targets"), w)
                | none =>
                  let w := w.call (.AddGrafanaDashboards client)
                  match deps.AddGrafanaDashboards client with
                  | some err => (some (emperror.Wrap err "failed to add grafana dashboards"), w)
                  | none =>
                    (none, { w.call (.SetServiceMesh true) with
                      cluster := w.cluster.SetServiceMesh true })
              else
                (none, { w.call (.SetServiceMesh true) with
                  cluster := w.cluster.SetServiceMesh true })

/-! ## Vocabulary for stating properties of a run -/

/-- The ten steps of the hook, in source order. -/
inductive Step where
  | bind
  | cidrLookup
  | serialize
  | deploy
  | getKubeconfig
  | createClient
  | labelNamespaces
  | addPrometheusTargets
  | addGrafanaDashboards
  | setServiceMesh
  deriving DecidableEq, Repr

/-- Step a recorded call belongs to. -/
def Call.step : Call → Step
  | .castToPostHookParam _ => .bind
  | .GetK8sIpv4Cidrs => .cidrLookup
  | .yamlMarshal _ => .serialize
  | .installDeployment _ _ _ _ _ _ => .deploy
  | .GetK8sConfig => .getKubeconfig
  | .NewClientFromKubeConfig _ => .createClient
  | .LabelNamespaces _ _ => .labelNamespaces
  | .AddPrometheusTargets _ => .addPrometheusTargets
  | .AddGrafanaDashboards _ => .addGrafanaDashboards
  | .SetServiceMesh _ => .setServiceMesh

/-- The fixed order of steps as the specification lists it (section 4.4), for
an invocation in which nothing fails: the CIDR lookup is present iff egress
bypass is requested, the two registrations iff monitoring is enabled.  Written
from the specification, to be compared with the calls of the hook. -/
def fixedOrder (bypass monitoring : Bool) : List Step :=
  [Step.bind] ++ (if bypass then [Step.cidrLookup] else []) ++
  [Step.serialize, Step.deploy, Step.getKubeconfig, Step.createClient, Step.labelNamespaces] ++
  (if monitoring then [Step.addPrometheusTargets, Step.addGrafanaDashboards] else []) ++
  [Step.setServiceMesh]

/-- The eight steps whose failure is fatal. -/
def fatalSteps : List Step :=
  [.bind, .serialize, .deploy, .getKubeconfig, .createClient, .labelNamespaces,
    .addPrometheusTargets, .addGrafanaDashboards]

/-- The message each fatal step wraps its error with, read off the eight
`emperror.Wrap` call sites. -/
def Step.message : Step → Option String
  | .bind => some "failed to cast posthook param"
  | .cidrLookup => none
  | .serialize => some "failed to marshal yaml values"
  | .deploy => some "installing Istio failed"
  | .getKubeconfig => some "failed to get kubeconfig"
  | .createClient => some "failed to create client from kubeconfig"
  | .labelNamespaces => some "failed to label namespace"
  | .addPrometheusTargets => some "failed to add prometheus targets"
  | .addGrafanaDashboards => some "failed to add grafana dashboards"
  | .setServiceMesh => none

/-- The error part of a `(T, error)` result. -/
def errorOf {α : Type} : Except GoError α → Option GoError
  | .error err => some err
  | .ok _ => none

/-- The error with which a recorded call fails fatally, obtained by asking the
collaborator for its outcome on the recorded arguments.  The CIDR lookup never
fails fatally (its error is only logged) and `SetServiceMesh` returns
nothing. -/
def Call.fatalError (deps : Collaborators) (cluster : CommonCluster) : Call → Option GoError
  | .castToPostHookParam param => errorOf (deps.castToPostHookParam param)
  | .GetK8sIpv4Cidrs => none
  | .yamlMarshal config => errorOf (deps.yamlMarshal config)
  | .installDeployment ns deploymentName releaseName values chartVersion wait =>
    deps.installDeployment ns deploymentName releaseName values chartVersion wait
  | .GetK8sConfig => errorOf cluster.GetK8sConfig
  | .NewClientFromKubeConfig kubeConfig => errorOf (deps.NewClientFromKubeConfig kubeConfig)
  | .LabelNamespaces client namespaces => deps.LabelNamespaces client namespaces
  | .AddPrometheusTargets client => deps.AddPrometheusTargets client
  | .AddGrafanaDashboards client => deps.AddGrafanaDashboards client
  | .SetServiceMesh _ => none

/-- Whether the bound parameters of this invocation request egress bypass
(false when binding fails). -/
def bypassRequested (deps : Collaborators) (param : PostHookParam) : Bool :=
  match deps.castToPostHookParam param with
  | .ok params => params.BypassEgressTraffic
  | .error _ => false

/-- The same collaborators, except that the binder clears
`BypassEgressTraffic` in the parameters it produces. -/
def withoutBypass (deps : Collaborators) : Collaborators :=
  { deps with castToPostHookParam := fun param =>
      match deps.castToPostHookParam param with
      | .ok params => .ok { params with BypassEgressTraffic := false }
      | .error err => .error err }

/-- The configuration as the specification prescribes it (section 4.4, steps 2
and 3, and the includeIPRanges property of section 8), computed from the bound
parameters and the outcome of the CIDR lookup alone: mtls.enabled is
params.EnableMtls; includeIPRanges is pod range, comma, service range when
bypass is requested and the lookup succeeds, and the proxy section is left at
its zero value otherwise.  Written from the specification, to be compared with
what the hook serializes. -/
def specConfig (params : InstallServiceMeshParams) (cidrs : Except GoError Ipv4Cidrs) :
    istio.Config :=
  { Global :=
      { Mtls := { Enabled := params.EnableMtls }
        Proxy :=
          match params.BypassEgressTraffic, cidrs with
          | true, .ok ipRanges =>
            { IncludeIPRanges := ipRanges.PodIPRange ++ "," ++ ipRanges.ServiceClusterIPRange }
          | _, _ => istio.Proxy.zero } }

/-- Whether a recorded call is the CIDR lookup. -/
def Call.isCidrLookup : Call → Bool
  | .GetK8sIpv4Cidrs => true
  | _ => false

/-! ## Concrete collaborators -/

/-- Binding of an optional boolean field: absent gives the default `false`. -/
def bindBool : Option PostHookParam → Except GoError Bool
  | none => .ok false
  | some (.bool b) => .ok b
  | some _ => .error (.mk "json: cannot unmarshal value into Go struct field of type bool")

/-- Binding of one element of a string array. -/
def bindString : PostHookParam → Except GoError String
  | .string s => .ok s
  | _ => .error (.mk "json: cannot unmarshal value into Go value of type string")

/-- Binding of an optional string-array field: absent gives the empty list. -/
def bindStrings : Option PostHookParam → Except GoError (List String)
  | none => .ok []
  | some (.array items) => items.mapM bindString
  | some _ => .error (.mk "json: cannot unmarshal value into Go struct field of type []string")

/-- Modelled from the spec: `castToPostHookParam` is defined elsewhere in the
package; section 4.1 and the parameter schema of section 6 describe it: the
payload must be a mapping, unknown fields are ignored, absent optional fields
take their defaults, a present field of the wrong type is a binding error. -/
def specBinder : PostHookParam → Except GoError InstallServiceMeshParams
  | .object fields =>
    match bindStrings (fields.lookup "autoSidecarInjectNamespaces"),
        bindBool (fields.lookup "bypassEgressTraffic"), bindBool (fields.lookup "mtls") with
    | .ok namespaces, .ok bypass, .ok mtls =>
      .ok { AutoSidecarInjectNamespaces := namespaces, BypassEgressTraffic := bypass,
            EnableMtls := mtls }
    | .error err, _, _ => .error err
    | _, .error err, _ => .error err
    | _, _, .error err => .error err
  | _ => .error (.mk "json: cannot unmarshal value into Go value of type cluster.InstallServiceMeshParams")

/-- A serializer that always succeeds, rendering the two leaves of the
configuration. -/
def sampleMarshal (config : istio.Config) : Except GoError Bytes :=
  .ok ("global.mtls.enabled=" ++ toString config.Global.Mtls.Enabled ++
    " global.proxy.includeIPRanges=" ++ config.Global.Proxy.IncludeIPRanges)

/-- Collaborators that all succeed. -/
def sampleDeps : Collaborators :=
  { castToPostHookParam := specBinder
    yamlMarshal := sampleMarshal
    installDeployment := fun _ _ _ _ _ _ => none
    viperGetString := fun key => if key = "cloud.istio.chartVersion" then "1.0.5" else ""
    NewClientFromKubeConfig := fun _ => .ok { id := 1 }
    LabelNamespaces := fun _ _ => none
    AddPrometheusTargets := fun _ => none
    AddGrafanaDashboards := fun _ => none
    istioNamespace := "istio-system"
    BanzaiRepository := "banzaicloud-stable"
    IstioChartVersion := "cloud.istio.chartVersion" }

/-- A cluster with monitoring disabled whose getters succeed, mesh flag unset. -/
def sampleCluster : CommonCluster :=
  { GetK8sIpv4Cidrs := .ok { PodIPRange := "10.0.0.0/16", ServiceClusterIPRange := "10.1.0.0/16" }
    GetK8sConfig := .ok "apiVersion: v1"
    GetMonitoring := false
    serviceMesh := false }

/-- The same cluster with monitoring enabled. -/
def monitoredCluster : CommonCluster :=
  { sampleCluster with GetMonitoring := true }

/-- The same cluster whose CIDR lookup fails. -/
def noCidrCluster : CommonCluster :=
  { sampleCluster with GetK8sIpv4Cidrs := .error (.mk "unsupported cluster type") }

/-- Collaborators whose deployment call fails. -/
def deployFailsDeps : Collaborators :=
  { sampleDeps with installDeployment := fun _ _ _ _ _ _ => some (.mk "helm: release failed") }

/-- Collaborators whose dashboard registration fails. -/
def grafanaFailsDeps : Collaborators :=
  { sampleDeps with AddGrafanaDashboards := fun _ => some (.mk "configmap update refused") }

/-- Payload `mtls: true`. -/
def mtlsParam : PostHookParam :=
  .object [("mtls", .bool true)]

/-- Payload requesting egress bypass and sidecar injection in one namespace. -/
def bypassParam : PostHookParam :=
  .object [("autoSidecarInjectNamespaces", .array [.string "default"]),
    ("bypassEgressTraffic", .bool true)]

/-- Payload with a string where a boolean is expected. -/
def badParam : PostHookParam :=
  .object [("mtls", .string "yes")]

/-! ## Theorems -/

/-! ### Shared lemmas on the call sequence -/

/-- No call of a run other than its last one failed fatally. -/
theorem no_fatal_failure_before_last (deps : Collaborators) (cluster : CommonCluster)
    (param : PostHookParam) :
    ∀ c ∈ (InstallServiceMesh deps cluster param).2.calls.dropLast,
      Call.fatalError deps cluster c = none := by
  unfold InstallServiceMesh
  simp only []
  repeat' split
  all_goals simp_all [World.call, World.start, World.log, CommonCluster.SetServiceMesh,
    Call.fatalError, errorOf]

/-- The steps of the calls of a run are an initial segment of the fixed
order. -/
theorem steps_initial_segment (deps : Collaborators) (cluster : CommonCluster)
    (param : PostHookParam) :
    (InstallServiceMesh deps cluster param).2.calls.map Call.step <+:
      fixedOrder (bypassRequested deps param) cluster.GetMonitoring := by
  unfold InstallServiceMesh bypassRequested
  simp only []
  repeat' split
  all_goals simp_all [World.call, World.start, World.log, CommonCluster.SetServiceMesh,
    Call.step, fixedOrder]

/-- A run ends either right after a call that failed fatally, with an error,
or after the whole fixed order, with nil. -/
theorem cut_after_first_failure (deps : Collaborators) (cluster : CommonCluster)
    (param : PostHookParam) :
    (∃ c, (InstallServiceMesh deps cluster param).2.calls.getLast? = some c ∧
        Call.fatalError deps cluster c ≠ none ∧
        (InstallServiceMesh deps cluster param).1 ≠ none) ∨
      ((InstallServiceMesh deps cluster param).2.calls.map Call.step =
          fixedOrder (bypassRequested deps param) cluster.GetMonitoring ∧
        (InstallServiceMesh deps cluster param).1 = none) := by
  unfold InstallServiceMesh bypassRequested
  simp only []
  repeat' split
  all_goals simp_all [World.call, World.start, World.log, CommonCluster.SetServiceMesh,
    errorOf, Call.fatalError, Call.step, fixedOrder]

/-- No step occurs twice in a run. -/
theorem steps_nodup (deps : Collaborators) (cluster : CommonCluster)
    (param : PostHookParam) :
    ((InstallServiceMesh deps cluster param).2.calls.map Call.step).Nodup := by
  unfold InstallServiceMesh
  simp only []
  repeat' split
  all_goals simp_all [World.call, World.start, World.log, CommonCluster.SetServiceMesh,
    Call.step]

/-- The CIDR lookup is made exactly when the bound parameters request egress
bypass. -/
theorem cidr_lookup_iff_bypass (deps : Collaborators) (cluster : CommonCluster)
    (param : PostHookParam) :
    Call.GetK8sIpv4Cidrs ∈ (InstallServiceMesh deps cluster param).2.calls ↔
      bypassRequested deps param = true := by
  unfold InstallServiceMesh bypassRequested
  simp only []
  repeat' split
  all_goals simp_all [World.call, World.start, World.log, CommonCluster.SetServiceMesh]

/-- Labeling receives the bound namespace list and SetServiceMesh receives
true. -/
theorem label_and_flag_arguments (deps : Collaborators) (cluster : CommonCluster)
    (param : PostHookParam) :
    (∀ params, deps.castToPostHookParam param = .ok params →
      ∀ client namespaces, Call.LabelNamespaces client namespaces ∈
          (InstallServiceMesh deps cluster param).2.calls →
        namespaces = params.AutoSidecarInjectNamespaces) ∧
    (∀ m, Call.SetServiceMesh m ∈ (InstallServiceMesh deps cluster param).2.calls →
      m = true) := by
  unfold InstallServiceMesh
  simp only []
  repeat' split
  all_goals simp_all [World.call, World.start, World.log, CommonCluster.SetServiceMesh]

/-! ### The claims -/

/-- C1: on a cluster whose mesh-enabled flag starts unset, after
InstallServiceMesh returns the flag is set if and only if the hook returned
nil, and if and only if the collaborator outcomes are all successes: binding
succeeds, serialization of the configuration succeeds, the deployment of the
serialized values succeeds, kubeconfig retrieval, client construction and
namespace labeling succeed and, when GetMonitoring() is true, both
registrations succeed.  The condition is on outcomes only; the CIDR lookup
enters it only through the configuration that is serialized, and its failure
is not an obstacle. -/
theorem mesh_flag_iff_all_steps_succeed (deps : Collaborators) (cluster : CommonCluster)
    (param : PostHookParam) (hstart : cluster.serviceMesh = false) :
    ((InstallServiceMesh deps cluster param).2.cluster.serviceMesh = true ↔
      (InstallServiceMesh deps cluster param).1 = none) ∧
    ((InstallServiceMesh deps cluster param).2.cluster.serviceMesh = true ↔
      ∃ params values kubeConfig client,
        deps.castToPostHookParam param = .ok params ∧
        deps.yamlMarshal (specConfig params cluster.GetK8sIpv4Cidrs) = .ok values ∧
        deps.installDeployment deps.istioNamespace (deps.BanzaiRepository ++ "/istio") "istio"
          values (deps.viperGetString deps.IstioChartVersion) false = none ∧
        cluster.GetK8sConfig = .ok kubeConfig ∧
        deps.NewClientFromKubeConfig kubeConfig = .ok client ∧
        deps.LabelNamespaces client params.AutoSidecarInjectNamespaces = none ∧
        (cluster.GetMonitoring = true →
          deps.AddPrometheusTargets client = none ∧
          deps.AddGrafanaDashboards client = none)) := by
  unfold InstallServiceMesh specConfig
  simp only []
  repeat' split
  all_goals simp_all [World.call, World.start, World.log, CommonCluster.SetServiceMesh]

/-- Witness for C1: with succeeding collaborators and the payload `mtls: true`
the flag of the sample cluster goes from unset to set. -/
theorem mesh_flag_iff_all_steps_succeed_witness :
    sampleCluster.serviceMesh = false ∧
    (InstallServiceMesh sampleDeps sampleCluster mtlsParam).2.cluster.serviceMesh = true :=
  ⟨rfl, (mesh_flag_iff_all_steps_succeed sampleDeps sampleCluster mtlsParam rfl).2.mpr
    ⟨{ AutoSidecarInjectNamespaces := [], BypassEgressTraffic := false, EnableMtls := true },
      "global.mtls.enabled=true global.proxy.includeIPRanges=", "apiVersion: v1", { id := 1 },
      rfl, rfl, rfl, rfl, rfl, rfl, fun h => Bool.noConfusion h⟩⟩

/-- C3: when binding succeeds with bypassEgressTraffic set and
GetK8sIpv4Cidrs returns an error, the hook does not return at that point: it
logs the warning, serializes a configuration whose proxy section is the zero
value (no includeIPRanges) and, the serializer accepting that configuration,
makes the deployment call with the serialized values.  The error result, the
final cluster and the calls other than the lookup are those of the same
invocation without the bypass request, so the result is determined by the
later steps only. -/
theorem cidr_failure_still_deploys (deps : Collaborators) (cluster : CommonCluster)
    (param : PostHookParam) (params : InstallServiceMeshParams) (err : GoError)
    (values : Bytes)
    (hbind : deps.castToPostHookParam param = .ok params)
    (hbypass : params.BypassEgressTraffic = true)
    (hcidr : cluster.GetK8sIpv4Cidrs = .error err)
    (hserialize : deps.yamlMarshal { Global := { Mtls := { Enabled := params.EnableMtls },
                                                 Proxy := istio.Proxy.zero } } = .ok values) :
    (InstallServiceMesh deps cluster param).2.calls.take 4 =
      [Call.castToPostHookParam param, Call.GetK8sIpv4Cidrs,
        Call.yamlMarshal { Global := { Mtls := { Enabled := params.EnableMtls },
                                       Proxy := istio.Proxy.zero } },
        Call.installDeployment deps.istioNamespace (deps.BanzaiRepository ++ "/istio") "istio"
          values (deps.viperGetString deps.IstioChartVersion) false] ∧
    Call.installDeployment deps.istioNamespace (deps.BanzaiRepository ++ "/istio") "istio"
        values (deps.viperGetString deps.IstioChartVersion) false ∈
      (InstallServiceMesh deps cluster param).2.calls ∧
    (∀ config, Call.yamlMarshal config ∈ (InstallServiceMesh deps cluster param).2.calls →
      config.Global.Proxy = istio.Proxy.zero ∧ config.Global.Proxy.IncludeIPRanges = "") ∧
    LogEntry.warnf
      "couldn't set included IP ranges in Envoy config, external requests will be intercepted" ∈
      (InstallServiceMesh deps cluster param).2.logs ∧
    (InstallServiceMesh deps cluster param).1 =
      (InstallServiceMesh (withoutBypass deps) cluster param).1 ∧
    (InstallServiceMesh deps cluster param).2.cluster =
      (InstallServiceMesh (withoutBypass deps) cluster param).2.cluster ∧
    (InstallServiceMesh deps cluster param).2.calls.filter (fun c => !c.isCidrLookup) =
      (InstallServiceMesh (withoutBypass deps) cluster param).2.calls := by
  unfold InstallServiceMesh
  simp only [withoutBypass, hbind, hbypass, hcidr]
  repeat' split
  all_goals simp_all [World.call, World.start, World.log, CommonCluster.SetServiceMesh,
    istio.Proxy.zero, Call.isCidrLookup]

/-- Witness for C3: on the cluster whose CIDR lookup fails the deployment call
is made, with the values of the configuration without includeIPRanges. -/
theorem cidr_failure_still_deploys_witness :
    Call.installDeployment "istio-system" "banzaicloud-stable/istio" "istio"
        "global.mtls.enabled=false global.proxy.includeIPRanges=" "1.0.5" false ∈
      (InstallServiceMesh sampleDeps noCidrCluster bypassParam).2.calls :=
  (cidr_failure_still_deploys sampleDeps noCidrCluster bypassParam
    { AutoSidecarInjectNamespaces := ["default"], BypassEgressTraffic := true,
      EnableMtls := false }
    (.mk "unsupported cluster type")
    "global.mtls.enabled=false global.proxy.includeIPRanges=" rfl rfl rfl rfl).2.1

/-- C4: when binding of the raw payload fails, InstallServiceMesh returns a
non-nil error (the binding error wrapped), the binder call is the only call it
makes (no CIDR lookup, deployment, kubeconfig fetch, labeling, registration or
SetServiceMesh call) and the cluster is left as it was. -/
theorem bind_failure_aborts (deps : Collaborators) (cluster : CommonCluster)
    (param : PostHookParam) (err : GoError)
    (hbind : deps.castToPostHookParam param = .error err) :
    (InstallServiceMesh deps cluster param).1 =
      some (emperror.Wrap err "failed to cast posthook param") ∧
    (InstallServiceMesh deps cluster param).1 ≠ none ∧
    (InstallServiceMesh deps cluster param).2.calls = [Call.castToPostHookParam param] ∧
    (InstallServiceMesh deps cluster param).2.cluster = cluster := by
  simp [InstallServiceMesh, hbind, World.call, World.start]

/-- Witness for C4: a payload with a string in the boolean field `mtls`. -/
theorem bind_failure_aborts_witness :
    (InstallServiceMesh sampleDeps sampleCluster badParam).2.calls =
      [Call.castToPostHookParam badParam] :=
  (bind_failure_aborts sampleDeps sampleCluster badParam
    (.mk "json: cannot unmarshal value into Go struct field of type bool") rfl).2.2.1

/-- C5 as stated fails: the deployment call returns an error and the hook
returns it wrapped, but the wrapping message is "installing Istio failed", not
"installing mesh failed". -/
theorem deploy_failure_message_counterexample :
    deployFailsDeps.installDeployment "istio-system" "banzaicloud-stable/istio" "istio"
      "global.mtls.enabled=true global.proxy.includeIPRanges=" "1.0.5" false =
      some (.mk "helm: release failed") ∧
    (InstallServiceMesh deployFailsDeps sampleCluster mtlsParam).2.calls.getLast? =
      some (Call.installDeployment "istio-system" "banzaicloud-stable/istio" "istio"
        "global.mtls.enabled=true global.proxy.includeIPRanges=" "1.0.5" false) ∧
    (InstallServiceMesh deployFailsDeps sampleCluster mtlsParam).1 ≠
      some (emperror.Wrap (.mk "helm: release failed") "installing mesh failed") ∧
    (InstallServiceMesh deployFailsDeps sampleCluster mtlsParam).1.map GoError.Error =
      some "installing Istio failed: helm: release failed" := by
  refine ⟨rfl, rfl, by decide, by decide⟩

/-- C5 amended: when the deployment call of the run returns an error, the hook
returns that error wrapped with the message "installing Istio failed", the
cluster (and so the mesh-enabled flag) is left as it was, the deployment call
is the last call, and neither kubeconfig retrieval, client construction,
LabelNamespaces nor SetServiceMesh is called. -/
theorem deploy_failure_aborts (deps : Collaborators) (cluster : CommonCluster)
    (param : PostHookParam) (ns deploymentName releaseName values chartVersion : String)
    (wait : Bool) (err : GoError)
    (hcalled : Call.installDeployment ns deploymentName releaseName values chartVersion wait ∈
      (InstallServiceMesh deps cluster param).2.calls)
    (hfail : deps.installDeployment ns deploymentName releaseName values chartVersion wait =
      some err) :
    (InstallServiceMesh deps cluster param).1 =
      some (emperror.Wrap err "installing Istio failed") ∧
    (InstallServiceMesh deps cluster param).2.cluster = cluster ∧
    (InstallServiceMesh deps cluster param).2.calls.getLast? =
      some (Call.installDeployment ns deploymentName releaseName values chartVersion wait) ∧
    Call.GetK8sConfig ∉ (InstallServiceMesh deps cluster param).2.calls ∧
    (∀ kubeConfig, Call.NewClientFromKubeConfig kubeConfig ∉
      (InstallServiceMesh deps cluster param).2.calls) ∧
    (∀ client namespaces, Call.LabelNamespaces client namespaces ∉
      (InstallServiceMesh deps cluster param).2.calls) ∧
    (∀ m, Call.SetServiceMesh m ∉ (InstallServiceMesh deps cluster param).2.calls) := by
  revert hcalled
  unfold InstallServiceMesh
  simp only []
  repeat' split
  all_goals simp only [World.call, World.start, World.log, CommonCluster.SetServiceMesh,
    List.nil_append, List.cons_append, List.mem_cons, List.mem_singleton, List.not_mem_nil,
    or_false, false_or, reduceCtorEq, Call.installDeployment.injEq]
  all_goals intro hcalled
  all_goals obtain ⟨rfl, rfl, rfl, rfl, rfl, rfl⟩ := hcalled
  all_goals simp_all

/-- Witness for C5 amended: the failing deployment of the sample run. -/
theorem deploy_failure_aborts_witness :
    (InstallServiceMesh deployFailsDeps sampleCluster mtlsParam).1 =
      some (emperror.Wrap (.mk "helm: release failed") "installing Istio failed") ∧
    (InstallServiceMesh deployFailsDeps sampleCluster mtlsParam).2.cluster.serviceMesh = false :=
  have hlast : (InstallServiceMesh deployFailsDeps sampleCluster mtlsParam).2.calls.getLast? =
      some (Call.installDeployment "istio-system" "banzaicloud-stable/istio" "istio"
        "global.mtls.enabled=true global.proxy.includeIPRanges=" "1.0.5" false) := rfl
  have h := deploy_failure_aborts deployFailsDeps sampleCluster mtlsParam
    "istio-system" "banzaicloud-stable/istio" "istio"
    "global.mtls.enabled=true global.proxy.includeIPRanges=" "1.0.5" false
    (.mk "helm: release failed") (List.mem_of_mem_getLast? hlast) rfl
  ⟨h.1, by rw [h.2.1]; rfl⟩

/-- C6: for the bound parameters `mtls: true` (no bypass, no namespaces) on a
cluster with monitoring disabled, when the serializer, the deployment, the
kubeconfig retrieval, the client constructor and the labeling succeed, the
calls of the hook are exactly: bind; serialize the configuration with
global.mtls.enabled = true and the proxy section at its zero value; deploy
with the serialized values; GetK8sConfig; NewClientFromKubeConfig;
LabelNamespaces with the empty list; SetServiceMesh(true).  There is no CIDR
lookup and no registration call, the flag ends set and the hook returns nil. -/
theorem mtls_only_scenario (deps : Collaborators) (cluster : CommonCluster)
    (param : PostHookParam)
    (hbind : deps.castToPostHookParam param =
      .ok { AutoSidecarInjectNamespaces := [], BypassEgressTraffic := false, EnableMtls := true })
    (hmonitoring : cluster.GetMonitoring = false)
    (hserialize : ∀ config, errorOf (deps.yamlMarshal config) = none)
    (hdeploy : ∀ ns deploymentName releaseName values chartVersion wait,
      deps.installDeployment ns deploymentName releaseName values chartVersion wait = none)
    (hkubeconfig : errorOf cluster.GetK8sConfig = none)
    (hclient : ∀ kubeConfig, errorOf (deps.NewClientFromKubeConfig kubeConfig) = none)
    (hlabel : ∀ client namespaces, deps.LabelNamespaces client namespaces = none) :
    ∃ values kubeConfig client,
      deps.yamlMarshal { Global := { Mtls := { Enabled := true },
                                     Proxy := istio.Proxy.zero } } = .ok values ∧
      cluster.GetK8sConfig = .ok kubeConfig ∧
      deps.NewClientFromKubeConfig kubeConfig = .ok client ∧
      (InstallServiceMesh deps cluster param).2.calls =
        [Call.castToPostHookParam param,
          Call.yamlMarshal { Global := { Mtls := { Enabled := true },
                                         Proxy := istio.Proxy.zero } },
          Call.installDeployment deps.istioNamespace (deps.BanzaiRepository ++ "/istio") "istio"
            values (deps.viperGetString deps.IstioChartVersion) false,
          Call.GetK8sConfig,
          Call.NewClientFromKubeConfig kubeConfig,
          Call.LabelNamespaces client [],
          Call.SetServiceMesh true] ∧
      (InstallServiceMesh deps cluster param).2.cluster.serviceMesh = true ∧
      (InstallServiceMesh deps cluster param).1 = none := by
  have hs : ∀ config err, deps.yamlMarshal config ≠ .error err := by
    intro config err h
    have := hserialize config
    simp [errorOf, h] at this
  have hk : ∀ err, cluster.GetK8sConfig ≠ .error err := by
    intro err h
    simp [errorOf, h] at hkubeconfig
  have hc : ∀ kubeConfig err, deps.NewClientFromKubeConfig kubeConfig ≠ .error err := by
    intro kubeConfig err h
    have := hclient kubeConfig
    simp [errorOf, h] at this
  clear hserialize hkubeconfig hclient
  unfold InstallServiceMesh
  simp only [hbind]
  repeat' split
  all_goals simp_all [World.call, World.start, World.log, CommonCluster.SetServiceMesh]

/-- Witness for C6: the payload `mtls: true` on the sample cluster. -/
theorem mtls_only_scenario_witness :
    (InstallServiceMesh sampleDeps sampleCluster mtlsParam).2.calls.map Call.step =
      [Step.bind, Step.serialize, Step.deploy, Step.getKubeconfig, Step.createClient,
        Step.labelNamespaces, Step.setServiceMesh] ∧
    (InstallServiceMesh sampleDeps sampleCluster mtlsParam).1 = none := by
  obtain ⟨values, kubeConfig, client, _, _, _, hcalls, _, hresult⟩ :=
    mtls_only_scenario sampleDeps sampleCluster mtlsParam rfl rfl (fun _ => rfl)
      (fun _ _ _ _ _ _ => rfl) rfl (fun _ => rfl) (fun _ _ => rfl)
  exact ⟨by rw [hcalls]; rfl, hresult⟩

/-- C7: when InstallServiceMesh returns a non-nil error, the last call it made
is a call of a fatal step that failed, no earlier call failed fatally, and the
returned error is emperror.Wrap of exactly the error that call returned with
the message of its step; the messages of the eight fatal steps are pairwise
distinct. -/
theorem error_is_wrapped_first_failure (deps : Collaborators) (cluster : CommonCluster)
    (param : PostHookParam) (e : GoError)
    (hfail : (InstallServiceMesh deps cluster param).1 = some e) :
    (∃ c cause message,
      (InstallServiceMesh deps cluster param).2.calls.getLast? = some c ∧
      c.step ∈ fatalSteps ∧
      Call.fatalError deps cluster c = some cause ∧
      c.step.message = some message ∧
      e = emperror.Wrap cause message) ∧
    (∀ c ∈ (InstallServiceMesh deps cluster param).2.calls.dropLast,
      Call.fatalError deps cluster c = none) ∧
    (∀ step ∈ fatalSteps, ∃ message, step.message = some message) ∧
    (fatalSteps.map Step.message).Nodup := by
  refine ⟨?_, ?_, by simp [fatalSteps, Step.message], by decide⟩
  · revert hfail
    unfold InstallServiceMesh
    simp only []
    repeat' split
    all_goals simp only [World.call, World.start, World.log, CommonCluster.SetServiceMesh,
      List.nil_append, List.cons_append, List.getLast?_cons_cons, List.getLast?_singleton,
      Option.some.injEq, reduceCtorEq, false_implies]
    all_goals intro hfail
    all_goals subst hfail
    all_goals refine ⟨_, _, _, rfl, ?_, ?_, rfl, rfl⟩
    all_goals first
      | exact (by simp [Call.step, fatalSteps])
      | simp_all [World.call, World.start, World.log, Call.fatalError, errorOf]
  · exact no_fatal_failure_before_last deps cluster param

/-- Witness for C7: the failing dashboard registration on the monitored
cluster. -/
theorem error_is_wrapped_first_failure_witness :
    ∃ c, (InstallServiceMesh grafanaFailsDeps monitoredCluster mtlsParam).2.calls.getLast? =
        some c ∧
      c.step.message = some "failed to add grafana dashboards" ∧
      Call.fatalError grafanaFailsDeps monitoredCluster c =
        some (.mk "configmap update refused") := by
  obtain ⟨⟨c, cause, message, hlast, _, hcause, hmessage, hwrap⟩, _⟩ :=
    error_is_wrapped_first_failure grafanaFailsDeps monitoredCluster mtlsParam
      (emperror.Wrap (.mk "configmap update refused") "failed to add grafana dashboards") rfl
  injection hwrap with h1 h2
  exact ⟨c, hlast, h2 ▸ hmessage, h1 ▸ hcause⟩

/-- C8: in a run whose labeling call succeeded, the calls from the labeling
call on are as follows.  With GetMonitoring() false: labeling, then
SetServiceMesh(true); neither registration is called and the hook returns nil.
With GetMonitoring() true: AddPrometheusTargets comes right after labeling; if
it fails the hook returns its error wrapped and stops; otherwise
AddGrafanaDashboards follows; if that fails the hook returns its error wrapped
and stops; in both failure cases SetServiceMesh is not called and the cluster
is left as it was; if both succeed SetServiceMesh(true) follows and the hook
returns nil. -/
theorem monitoring_registrations (deps : Collaborators) (cluster : CommonCluster)
    (param : PostHookParam) (client : Client) (namespaces : List String)
    (hreached : Call.LabelNamespaces client namespaces ∈
      (InstallServiceMesh deps cluster param).2.calls)
    (hlabel : deps.LabelNamespaces client namespaces = none) :
    (cluster.GetMonitoring = false →
      (InstallServiceMesh deps cluster param).2.calls.dropWhile
          (fun c => c.step != Step.labelNamespaces) =
        [Call.LabelNamespaces client namespaces, Call.SetServiceMesh true] ∧
      (∀ c, Call.AddPrometheusTargets c ∉ (InstallServiceMesh deps cluster param).2.calls) ∧
      (∀ c, Call.AddGrafanaDashboards c ∉ (InstallServiceMesh deps cluster param).2.calls) ∧
      (InstallServiceMesh deps cluster param).1 = none) ∧
    (cluster.GetMonitoring = true → ∀ err, deps.AddPrometheusTargets client = some err →
      (InstallServiceMesh deps cluster param).2.calls.dropWhile
          (fun c => c.step != Step.labelNamespaces) =
        [Call.LabelNamespaces client namespaces, Call.AddPrometheusTargets client] ∧
      (InstallServiceMesh deps cluster param).1 =
        some (emperror.Wrap err "failed to add prometheus targets") ∧
      (InstallServiceMesh deps cluster param).2.cluster = cluster ∧
      (∀ c, Call.AddGrafanaDashboards c ∉ (InstallServiceMesh deps cluster param).2.calls) ∧
      ∀ m, Call.SetServiceMesh m ∉ (InstallServiceMesh deps cluster param).2.calls) ∧
    (cluster.GetMonitoring = true → deps.AddPrometheusTargets client = none →
      ∀ err, deps.AddGrafanaDashboards client = some err →
      (InstallServiceMesh deps cluster param).2.calls.dropWhile
          (fun c => c.step != Step.labelNamespaces) =
        [Call.LabelNamespaces client namespaces, Call.AddPrometheusTargets client,
          Call.AddGrafanaDashboards client] ∧
      (InstallServiceMesh deps cluster param).1 =
        some (emperror.Wrap err "failed to add grafana dashboards") ∧
      (InstallServiceMesh deps cluster param).2.cluster = cluster ∧
      ∀ m, Call.SetServiceMesh m ∉ (InstallServiceMesh deps cluster param).2.calls) ∧
    (cluster.GetMonitoring = true → deps.AddPrometheusTargets client = none →
      deps.AddGrafanaDashboards client = none →
      (InstallServiceMesh deps cluster param).2.calls.dropWhile
          (fun c => c.step != Step.labelNamespaces) =
        [Call.LabelNamespaces client namespaces, Call.AddPrometheusTargets client,
          Call.AddGrafanaDashboards client, Call.SetServiceMesh true] ∧
      (InstallServiceMesh deps cluster param).1 = none) := by
  revert hreached
  unfold InstallServiceMesh
  simp only []
  repeat' split
  all_goals simp only [World.call, World.start, World.log, CommonCluster.SetServiceMesh,
    List.nil_append, List.cons_append, List.mem_cons, List.mem_singleton, List.not_mem_nil,
    or_false, false_or, reduceCtorEq, Call.LabelNamespaces.injEq]
  all_goals intro hreached
  all_goals obtain ⟨rfl, rfl⟩ := hreached
  all_goals simp_all [List.dropWhile_cons, Call.step]

/-- Witness for C8: on the monitored cluster the failing dashboard registration
comes after the metrics registration and nothing follows it. -/
theorem monitoring_registrations_witness :
    (InstallServiceMesh grafanaFailsDeps monitoredCluster mtlsParam).2.calls.dropWhile
        (fun c => c.step != Step.labelNamespaces) =
      [Call.LabelNamespaces { id := 1 } [], Call.AddPrometheusTargets { id := 1 },
        Call.AddGrafanaDashboards { id := 1 }] ∧
    (InstallServiceMesh grafanaFailsDeps monitoredCluster mtlsParam).1 =
      some (emperror.Wrap (.mk "configmap update refused") "failed to add grafana dashboards") :=
  have hmem : Call.LabelNamespaces { id := 1 } [] ∈
      (InstallServiceMesh grafanaFailsDeps monitoredCluster mtlsParam).2.calls :=
    List.mem_of_mem_getLast? (show List.getLast?
      ((InstallServiceMesh grafanaFailsDeps monitoredCluster mtlsParam).2.calls.take 6) =
        some (Call.LabelNamespaces { id := 1 } []) from rfl) |> List.mem_of_mem_take
  have h := (monitoring_registrations grafanaFailsDeps monitoredCluster mtlsParam
    { id := 1 } [] hmem rfl).2.2.1 rfl rfl (.mk "configmap update refused") rfl
  ⟨h.1, h.2.1⟩

/-- C9: when binding succeeds and the serialization performed in the run
succeeds, the hook makes exactly one deployment call; its arguments are the
namespace istio.Namespace, the chart BanzaiRepository ++ "/istio", the release
name "istio", the chart version that the configuration store returns for the
IstioChartVersion key, wait = false, and values that are the serialization of
the configuration the hook built, whose global.mtls.enabled equals
params.EnableMtls. -/
theorem deployment_call_arguments (deps : Collaborators) (cluster : CommonCluster)
    (param : PostHookParam) (params : InstallServiceMeshParams)
    (hbind : deps.castToPostHookParam param = .ok params)
    (hserialize : ∀ config, Call.yamlMarshal config ∈
      (InstallServiceMesh deps cluster param).2.calls →
      errorOf (deps.yamlMarshal config) = none) :
    ∃ config values,
      Call.yamlMarshal config ∈ (InstallServiceMesh deps cluster param).2.calls ∧
      config.Global.Mtls.Enabled = params.EnableMtls ∧
      deps.yamlMarshal config = .ok values ∧
      (InstallServiceMesh deps cluster param).2.calls.filter
          (fun c => c.step == Step.deploy) =
        [Call.installDeployment deps.istioNamespace (deps.BanzaiRepository ++ "/istio") "istio"
          values (deps.viperGetString deps.IstioChartVersion) false] := by
  revert hserialize
  unfold InstallServiceMesh
  simp only []
  repeat' split
  all_goals simp only [World.call, World.start, World.log, CommonCluster.SetServiceMesh,
    List.nil_append, List.cons_append, List.mem_cons, List.mem_singleton, List.not_mem_nil,
    or_false, false_or, reduceCtorEq, Call.yamlMarshal.injEq, forall_eq]
  all_goals intro hserialize
  all_goals simp_all [errorOf, List.filter_cons, Call.step]

/-- Witness for C9: the single deployment call of the sample run. -/
theorem deployment_call_arguments_witness :
    ∃ config values,
      config.Global.Mtls.Enabled = true ∧
      sampleMarshal config = .ok values ∧
      (InstallServiceMesh sampleDeps sampleCluster mtlsParam).2.calls.filter
          (fun c => c.step == Step.deploy) =
        [Call.installDeployment "istio-system" "banzaicloud-stable/istio" "istio"
          values "1.0.5" false] := by
  obtain ⟨config, values, _, hmtls, hvalues, hcalls⟩ :=
    deployment_call_arguments sampleDeps sampleCluster mtlsParam
      { AutoSidecarInjectNamespaces := [], BypassEgressTraffic := false, EnableMtls := true }
      rfl (fun _ _ => rfl)
  exact ⟨config, values, hmtls, hvalues, hcalls⟩

/-- C10: the steps of the calls made by one invocation form an initial
segment of the fixed order bind; CIDR lookup (iff the bound parameters request
egress bypass); serialize; deploy; GetK8sConfig; NewClientFromKubeConfig;
LabelNamespaces; AddPrometheusTargets, AddGrafanaDashboards (iff
GetMonitoring()); SetServiceMesh.  No call but the last one failed fatally;
either the last call failed fatally and the hook returns an error, or the
whole order was run and the hook returns nil.  No step occurs twice, the CIDR
lookup is made exactly when bypass is requested, labeling receives
params.AutoSidecarInjectNamespaces and SetServiceMesh receives true. -/
theorem calls_follow_fixed_order (deps : Collaborators) (cluster : CommonCluster)
    (param : PostHookParam) :
    ((InstallServiceMesh deps cluster param).2.calls.map Call.step <+:
      fixedOrder (bypassRequested deps param) cluster.GetMonitoring) ∧
    (∀ c ∈ (InstallServiceMesh deps cluster param).2.calls.dropLast,
      Call.fatalError deps cluster c = none) ∧
    ((∃ c, (InstallServiceMesh deps cluster param).2.calls.getLast? = some c ∧
        Call.fatalError deps cluster c ≠ none ∧
        (InstallServiceMesh deps cluster param).1 ≠ none) ∨
      ((InstallServiceMesh deps cluster param).2.calls.map Call.step =
          fixedOrder (bypassRequested deps param) cluster.GetMonitoring ∧
        (InstallServiceMesh deps cluster param).1 = none)) ∧
    ((InstallServiceMesh deps cluster param).2.calls.map Call.step).Nodup ∧
    (Call.GetK8sIpv4Cidrs ∈ (InstallServiceMesh deps cluster param).2.calls ↔
      bypassRequested deps param = true) ∧
    (∀ params, deps.castToPostHookParam param = .ok params →
      ∀ client namespaces, Call.LabelNamespaces client namespaces ∈
          (InstallServiceMesh deps cluster param).2.calls →
        namespaces = params.AutoSidecarInjectNamespaces) ∧
    (∀ m, Call.SetServiceMesh m ∈ (InstallServiceMesh deps cluster param).2.calls →
      m = true) := by
  exact ⟨steps_initial_segment deps cluster param,
    no_fatal_failure_before_last deps cluster param,
    cut_after_first_failure deps cluster param,
    steps_nodup deps cluster param,
    cidr_lookup_iff_bypass deps cluster param,
    (label_and_flag_arguments deps cluster param).1,
    (label_and_flag_arguments deps cluster param).2⟩

end Cluster
